import Mathlib

/-
Verification of the coffee-journal CRUD backend (src/backend/server.py and
src/backend/models/*.py), shallowly embedded in Lean 4.

The backend is a FastAPI application.  server.py defines pydantic schemas
(CoffeeEntryBase / CoffeeEntryCreate / CoffeeEntryUpdate / CoffeeEntryResponse)
and five route handlers for the coffee-entries resource, backed by a SQLAlchemy
table (models/coffee_entry.py).  models/todo.py and models/hand.py define two
further tables (todos, hands) for which server.py registers no routes.

The database is modelled as a list of rows plus an autoincrement counter
(PostgreSQL SERIAL primary key: each insert receives the next counter value).
Datetimes are modelled as abstract Nat timestamps; SQL floats as Rat (the code
performs no arithmetic on them, they are stored and returned unchanged).
-/

namespace CoffeeJournal

/-- HTTP methods used by the route decorators in server.py. -/
inductive Method
  | get
  | post
  | patch
  | delete
deriving DecidableEq

/-- Shape of a route path as registered in server.py: a collection path such
as /coffee-entries, or an item path such as /coffee-entries/(entry_id). -/
inductive RoutePath
  | collection (resource : String)
  | item (resource : String)
deriving DecidableEq

/-- A registered route: HTTP method plus path shape. -/
structure Route where
  method : Method
  path : RoutePath
deriving DecidableEq

/-- The routes registered by the decorators in server.py, in source order.
The only resource with routes is coffee-entries.  The conditional static-file
mount and SPA catch-all (registered only when a static build directory exists)
are not CRUD routes and are elided. -/
def serverRoutes : List Route :=
  [ ⟨.get, .collection "coffee-entries"⟩,
    ⟨.get, .item "coffee-entries"⟩,
    ⟨.post, .collection "coffee-entries"⟩,
    ⟨.patch, .item "coffee-entries"⟩,
    ⟨.delete, .item "coffee-entries"⟩ ]

/-- The resource a route belongs to. -/
def Route.resource : Route → String
  | ⟨_, .collection s⟩ => s
  | ⟨_, .item s⟩ => s

/-- Whether server.py registers all five CRUD operations (list, get-by-id,
create, partial update, delete) for a given resource path segment. -/
def hasCrudRoutes (res : String) : Bool :=
  serverRoutes.contains ⟨.get, .collection res⟩ &&
  serverRoutes.contains ⟨.get, .item res⟩ &&
  serverRoutes.contains ⟨.post, .collection res⟩ &&
  serverRoutes.contains ⟨.patch, .item res⟩ &&
  serverRoutes.contains ⟨.delete, .item res⟩

/-- A row of the coffee_entries table (models/coffee_entry.py).  id is the
integer primary key; coffee_name is NOT NULL; every other column is nullable.
rating is a SQL float, modelled as Rat; date_tried a datetime, modelled as an
abstract Nat timestamp. -/
structure CoffeeEntry where
  id : Nat
  coffee_name : String
  roaster : Option String
  origin : Option String
  processing : Option String
  roast_level : Option String
  brewing_method : Option String
  rating : Option Rat
  tasting_notes : Option String
  date_tried : Option Nat
deriving DecidableEq

/-- Column names of the coffee_entries table, from models/coffee_entry.py. -/
def coffeeEntryColumns : List String :=
  [ "id", "coffee_name", "roaster", "origin", "processing", "roast_level",
    "brewing_method", "rating", "tasting_notes", "date_tried" ]

/-- Field names of the pydantic CoffeeEntryBase schema in server.py, which
CoffeeEntryCreate inherits unchanged. -/
def coffeeEntryBaseFields : List String :=
  [ "coffee_name", "roaster", "origin", "roast_level", "brewing_method",
    "rating", "tasting_notes", "date_tried" ]

/-- Field names of the pydantic CoffeeEntryResponse schema in server.py:
the base fields plus the generated id. -/
def coffeeEntryResponseFields : List String :=
  coffeeEntryBaseFields ++ ["id"]

/-- The raw JSON body of a POST /coffee-entries request, before pydantic
validation.  For each field of CoffeeEntryBase, none means the key is absent
(or null, which the required str field coffee_name equally rejects and which
for the optional fields coincides with their None default). -/
structure RawCreatePayload where
  coffee_name : Option String
  roaster : Option String
  origin : Option String
  roast_level : Option String
  brewing_method : Option String
  rating : Option Rat
  tasting_notes : Option String
  date_tried : Option Nat
deriving DecidableEq

/-- A validated CoffeeEntryCreate value (server.py): coffee_name is a required
str, the remaining base fields are Optional with default None.  The schema has
no processing field. -/
structure CoffeeEntryCreate where
  coffee_name : String
  roaster : Option String
  origin : Option String
  roast_level : Option String
  brewing_method : Option String
  rating : Option Rat
  tasting_notes : Option String
  date_tried : Option Nat
deriving DecidableEq

/-- Pydantic validation of a create payload: fails (FastAPI returns 422) when
the required coffee_name is missing; optional fields fall back to None. -/
def CoffeeEntryCreate.validate (p : RawCreatePayload) : Option CoffeeEntryCreate :=
  match p.coffee_name with
  | none => none
  | some name =>
    some { coffee_name := name
           roaster := p.roaster
           origin := p.origin
           roast_level := p.roast_level
           brewing_method := p.brewing_method
           rating := p.rating
           tasting_notes := p.tasting_notes
           date_tried := p.date_tried }

/-- The database state: the rows of the coffee_entries table plus the
autoincrement counter backing the SERIAL primary key. -/
structure DB where
  rows : List CoffeeEntry
  nextId : Nat
deriving DecidableEq

/-- Well-formedness maintained by the primary key: row ids are pairwise
distinct and below the autoincrement counter. -/
def DB.WF (db : DB) : Prop :=
  db.rows.Pairwise (fun a b => a.id ≠ b.id) ∧ ∀ r ∈ db.rows, r.id < db.nextId

instance (db : DB) : Decidable db.WF := by
  unfold DB.WF; infer_instance

/-- Result of a route handler: a success status with a body, or an
HTTPException status with its detail message. -/
inductive HRes (α : Type)
  | ok (status : Nat) (body : α)
  | err (status : Nat) (detail : String)
deriving DecidableEq

/-- The detail message of the 404 HTTPException raised in server.py. -/
def notFoundDetail (id : Nat) : String :=
  "Coffee entry with ID " ++ toString id ++ " not found"

/-- The select ... where CoffeeEntry.id == entry_id followed by
scalar_one_or_none: the row with the given id, if any (the primary key makes
it unique, so first match suffices). -/
def DB.findEntry (db : DB) (id : Nat) : Option CoffeeEntry :=
  db.rows.find? (fun r => r.id == id)

/-- GET /coffee-entries: returns all rows. -/
def get_all_coffee_entries (db : DB) : HRes (List CoffeeEntry) :=
  .ok 200 db.rows

/-- GET /coffee-entries/(entry_id): the matching row, or 404. -/
def get_coffee_entry (db : DB) (id : Nat) : HRes CoffeeEntry :=
  match db.findEntry id with
  | none => .err 404 (notFoundDetail id)
  | some e => .ok 200 e

/-- The body of create_coffee_entry in server.py: builds a CoffeeEntry row
from the validated payload (the constructor call passes every schema field;
processing is not a schema field, so the column keeps its NULL default),
inserts it (the SERIAL primary key assigns the next counter value), commits,
and returns the refreshed row. -/
def create_coffee_entry (entry : CoffeeEntryCreate) (db : DB) : CoffeeEntry × DB :=
  let db_entry : CoffeeEntry :=
    { id := db.nextId
      coffee_name := entry.coffee_name
      roaster := entry.roaster
      origin := entry.origin
      processing := none
      roast_level := entry.roast_level
      brewing_method := entry.brewing_method
      rating := entry.rating
      tasting_notes := entry.tasting_notes
      date_tried := entry.date_tried }
  (db_entry, { rows := db.rows ++ [db_entry], nextId := db.nextId + 1 })

/-- POST /coffee-entries end to end: pydantic validation (422 on failure,
nothing persisted), then create_coffee_entry, returning 201 with the row. -/
def post_coffee_entry (db : DB) (p : RawCreatePayload) : HRes CoffeeEntry × DB :=
  match CoffeeEntryCreate.validate p with
  | none => (.err 422 "field required: coffee_name", db)
  | some c =>
    let r := create_coffee_entry c db
    (.ok 201 r.1, r.2)

/-- One field of a PATCH body under pydantic model_dump with exclude_unset:
either the key was absent from the request (unset) or it was supplied with a
value (set), where for a nullable column the supplied value may itself be
null. -/
inductive FieldPatch (α : Type)
  | unset
  | set (v : α)
deriving DecidableEq

/-- Applying one field of the update: setattr overwrites when the field was
supplied, otherwise the attribute keeps its value. -/
def FieldPatch.apply (p : FieldPatch α) (old : α) : α :=
  match p with
  | .unset => old
  | .set v => v

/-- The pydantic CoffeeEntryUpdate schema in server.py with per-field presence
tracking (model_dump exclude_unset): every base field is Optional with default
None, so each may be unset, set to a value, or set to an explicit null —
including coffee_name, whose explicit null passes validation and only fails
later at commit against the NOT NULL column.  processing and id are not
fields of the schema and thus can never appear in an update. -/
structure CoffeeEntryUpdate where
  coffee_name : FieldPatch (Option String)
  roaster : FieldPatch (Option String)
  origin : FieldPatch (Option String)
  roast_level : FieldPatch (Option String)
  brewing_method : FieldPatch (Option String)
  rating : FieldPatch (Option Rat)
  tasting_notes : FieldPatch (Option String)
  date_tried : FieldPatch (Option Nat)
deriving DecidableEq

/-- The PATCH body with no keys: every field unset. -/
def emptyUpdate : CoffeeEntryUpdate :=
  { coffee_name := .unset, roaster := .unset, origin := .unset,
    roast_level := .unset, brewing_method := .unset, rating := .unset,
    tasting_notes := .unset, date_tried := .unset }

/-- The detail of the unhandled persistence failure surfacing as a generic
server error when a PATCH sets the NOT NULL coffee_name column to null. -/
def integrityErrorDetail : String :=
  "IntegrityError: null value in column coffee_name violates not-null constraint"

/-- The setattr loop of patch_coffee_entry followed by the commit: for each
field present in model_dump(exclude_unset := true), overwrite the attribute;
fields absent from the dump, and the columns id and processing that the
schema lacks, keep their values.  The Python attribute for coffee_name is
untyped, so the loop can transiently set it to None; the commit then violates
the NOT NULL constraint, raising IntegrityError — modelled as none (no
committed row).  Otherwise the committed row is returned. -/
def applyUpdate (e : CoffeeEntry) (u : CoffeeEntryUpdate) : Option CoffeeEntry :=
  match u.coffee_name.apply (some e.coffee_name) with
  | none => none
  | some name =>
    some
      { e with
        coffee_name := name
        roaster := u.roaster.apply e.roaster
        origin := u.origin.apply e.origin
        roast_level := u.roast_level.apply e.roast_level
        brewing_method := u.brewing_method.apply e.brewing_method
        rating := u.rating.apply e.rating
        tasting_notes := u.tasting_notes.apply e.tasting_notes
        date_tried := u.date_tried.apply e.date_tried }

/-- The row a successful PATCH commits: every supplied field overwritten,
everything else untouched; applyUpdate computes some of exactly this row
whenever the update does not null coffee_name (applyUpdate_eq_some below). -/
def appliedRow (e : CoffeeEntry) (u : CoffeeEntryUpdate) : CoffeeEntry :=
  { e with
    coffee_name := (u.coffee_name.apply (some e.coffee_name)).getD e.coffee_name
    roaster := u.roaster.apply e.roaster
    origin := u.origin.apply e.origin
    roast_level := u.roast_level.apply e.roast_level
    brewing_method := u.brewing_method.apply e.brewing_method
    rating := u.rating.apply e.rating
    tasting_notes := u.tasting_notes.apply e.tasting_notes
    date_tried := u.date_tried.apply e.date_tried }

/-- Mutating the fetched ORM object in place: the first row with the given id
is rewritten by f, the rest of the table is untouched. -/
def replaceFirst (rows : List CoffeeEntry) (id : Nat) (f : CoffeeEntry → CoffeeEntry) :
    List CoffeeEntry :=
  match rows with
  | [] => []
  | r :: rs => if r.id == id then f r :: rs else r :: replaceFirst rs id f

/-- PATCH /coffee-entries/(entry_id): 404 when the id has no row (database
untouched); otherwise the setattr loop rewrites exactly the supplied fields
of that row and the change is committed.  When the body explicitly nulls the
NOT NULL coffee_name column, the commit raises IntegrityError, which
propagates as a generic 500 server error with the transaction rolled back and
nothing applied; otherwise the refreshed row is returned with 200. -/
def patch_coffee_entry (db : DB) (id : Nat) (u : CoffeeEntryUpdate) :
    HRes CoffeeEntry × DB :=
  match db.findEntry id with
  | none => (.err 404 (notFoundDetail id), db)
  | some e =>
    match applyUpdate e u with
    | none => (.err 500 integrityErrorDetail, db)
    | some e2 =>
      (.ok 200 e2,
       { db with rows := replaceFirst db.rows id fun r => (applyUpdate r u).getD r })

/-- db.delete of the fetched ORM object: the first row with the given id is
removed, the rest of the table is untouched. -/
def removeFirst (rows : List CoffeeEntry) (id : Nat) : List CoffeeEntry :=
  match rows with
  | [] => []
  | r :: rs => if r.id == id then rs else r :: removeFirst rs id

/-- DELETE /coffee-entries/(entry_id): 404 when the id has no row (database
untouched); otherwise the row is deleted and 204 with no content returned. -/
def delete_coffee_entry (db : DB) (id : Nat) : HRes Unit × DB :=
  match db.findEntry id with
  | none => (.err 404 (notFoundDetail id), db)
  | some _ => (.ok 204 (), { db with rows := removeFirst db.rows id })

/-- A database with one sample row, used by the witness statements below. -/
def sampleEntry : CoffeeEntry :=
  { id := 1, coffee_name := "Ethiopia Guji", roaster := some "Local Roast Co",
    origin := some "Ethiopia", processing := some "washed", roast_level := none,
    brewing_method := none, rating := none, tasting_notes := none,
    date_tried := none }

/-- Sample database holding sampleEntry, counter past its id. -/
def sampleDB : DB := { rows := [sampleEntry], nextId := 2 }

/-- Sample sparse PATCH body: only roaster is supplied. -/
def sampleUpdate : CoffeeEntryUpdate :=
  { emptyUpdate with roaster := .set (some "New Roaster") }

/-- Sample sparse PATCH body clearing optional fields with explicit nulls. -/
def sampleNullUpdate : CoffeeEntryUpdate :=
  { emptyUpdate with roaster := .set none, origin := .set none }

/-- Sample PATCH body explicitly supplying null for coffee_name only. -/
def nullNameUpdate : CoffeeEntryUpdate :=
  { emptyUpdate with coffee_name := .set none }

/-- Sample PATCH body explicitly supplying null for both roaster and the NOT
NULL coffee_name column. -/
def nullBothUpdate : CoffeeEntryUpdate :=
  { emptyUpdate with coffee_name := .set none, roaster := .set none }

/-- Sample create payload whose required coffee_name is the empty string. -/
def emptyNamePayload : RawCreatePayload :=
  { coffee_name := some "", roaster := none, origin := none, roast_level := none,
    brewing_method := none, rating := none, tasting_notes := none,
    date_tried := none }

/-- Sample create payload with coffee_name present. -/
def samplePayload : RawCreatePayload :=
  { coffee_name := some "Kenya AA", roaster := some "Local Roast Co",
    origin := none, roast_level := none, brewing_method := none, rating := none,
    tasting_notes := none, date_tried := none }

/-- Sample create payload with coffee_name absent. -/
def noNamePayload : RawCreatePayload :=
  { coffee_name := none, roaster := some "Local Roast Co", origin := none,
    roast_level := none, brewing_method := none, rating := none,
    tasting_notes := none, date_tried := none }

/-- The record created from emptyNamePayload on an empty table. -/
def emptyNameEntry : CoffeeEntry :=
  { id := 1, coffee_name := "", roaster := none, origin := none,
    processing := none, roast_level := none, brewing_method := none,
    rating := none, tasting_notes := none, date_tried := none }

/-- An empty database whose autoincrement counter starts at 1. -/
def emptyDB : DB := { rows := [], nextId := 1 }

theorem applyUpdate_empty (e : CoffeeEntry) :
    applyUpdate e emptyUpdate = some e := rfl

theorem applyUpdate_eq_some (e : CoffeeEntry) (u : CoffeeEntryUpdate)
    (hcn : u.coffee_name ≠ .set none) :
    applyUpdate e u = some (appliedRow e u) := by
  cases hc : u.coffee_name with
  | unset => simp [applyUpdate, appliedRow, FieldPatch.apply, hc]
  | set ov =>
    cases ov with
    | none => exact absurd hc hcn
    | some v => simp [applyUpdate, appliedRow, FieldPatch.apply, hc]

theorem replaceFirst_congr_id (rows : List CoffeeEntry) (id : Nat)
    (f : CoffeeEntry → CoffeeEntry) (hf : ∀ r, f r = r) :
    replaceFirst rows id f = rows := by
  induction rows with
  | nil => rfl
  | cons r rs ih =>
    unfold replaceFirst
    by_cases h : (r.id == id) = true
    · simp [h, hf r]
    · simp [h, ih]

theorem mem_replaceFirst_of_find? (rows : List CoffeeEntry) (id : Nat)
    (f : CoffeeEntry → CoffeeEntry) (e : CoffeeEntry)
    (h : rows.find? (fun r => r.id == id) = some e) :
    f e ∈ replaceFirst rows id f := by
  induction rows with
  | nil => simp at h
  | cons r rs ih =>
    by_cases hr : (r.id == id) = true
    · simp only [List.find?_cons, hr] at h
      injection h with h
      subst h
      simp [replaceFirst, hr]
    · simp only [List.find?_cons, hr] at h
      simp only [replaceFirst, hr, if_false]
      exact List.mem_cons_of_mem _ (ih h)

theorem find?_removeFirst_eq_none (rows : List CoffeeEntry) (id : Nat)
    (hpw : rows.Pairwise (fun a b => a.id ≠ b.id)) :
    (removeFirst rows id).find? (fun r => r.id == id) = none := by
  induction rows with
  | nil => simp [removeFirst]
  | cons r rs ih =>
    rcases List.pairwise_cons.mp hpw with ⟨hr, htail⟩
    by_cases h : (r.id == id) = true
    · have hid : r.id = id := by simpa using h
      simp only [removeFirst, h, if_true]
      rw [List.find?_eq_none]
      intro x hx
      have : r.id ≠ x.id := hr x hx
      simp [beq_iff_eq]
      omega
    · have hid : (r.id == id) = false := by simpa using h
      simp [removeFirst, hid, List.find?_cons, ih htail]

/-- C1, counterexample: the claim says all five CRUD operations are exposed
for every one of the three resources, but server.py registers no route at all
for the todos resource (nor for poker hands): only the coffee-entries routes
exist. -/
theorem C1_counterexample : hasCrudRoutes "todos" = false := by decide

/-- C1, amended: the server exposes all five HTTP operations (list, get-by-id,
create, partial update, delete) for the coffee-entries resource only; the
todos and poker-hands record types have database models but no routes, and
every registered route concerns coffee-entries. -/
theorem C1_crud_routes_coffee_only :
    hasCrudRoutes "coffee-entries" = true ∧
    (serverRoutes.all fun r => r.resource == "coffee-entries") = true ∧
    hasCrudRoutes "todos" = false ∧
    hasCrudRoutes "hands" = false := by decide

/-- C3: creating a record whose payload lacks the required coffee_name field
is rejected by pydantic validation with a 422 before any persistence occurs:
the handler body never runs and the database is returned unchanged. -/
theorem C3_missing_required_field_rejected (db : DB) (p : RawCreatePayload)
    (h : p.coffee_name = none) :
    post_coffee_entry db p = (.err 422 "field required: coffee_name", db) := by
  simp [post_coffee_entry, CoffeeEntryCreate.validate, h]

/-- C3 witness: a concrete payload without coffee_name is rejected with 422
and the sample database is unchanged. -/
theorem C3_witness :
    post_coffee_entry sampleDB noNamePayload
      = (.err 422 "field required: coffee_name", sampleDB) :=
  C3_missing_required_field_rejected sampleDB noNamePayload rfl

/-- C5: get-by-id returns 404 exactly when no row has the requested id, and
whenever it returns 200 the body is a row of the table whose id matches the
request — never a default or empty record. -/
theorem C5_get_by_id_semantics (db : DB) (id : Nat) :
    (get_coffee_entry db id = .err 404 (notFoundDetail id) ↔
       ∀ r ∈ db.rows, r.id ≠ id) ∧
    ∀ e, get_coffee_entry db id = .ok 200 e → e ∈ db.rows ∧ e.id = id := by
  cases hfind : db.findEntry id with
  | none =>
    have hg : get_coffee_entry db id = .err 404 (notFoundDetail id) := by
      simp [get_coffee_entry, hfind]
    have hall : ∀ r ∈ db.rows, r.id ≠ id := by
      intro r hr
      have := List.find?_eq_none.mp hfind r hr
      simpa using this
    refine ⟨⟨fun _ => hall, fun _ => hg⟩, ?_⟩
    intro e he
    rw [hg] at he
    simp at he
  | some e0 =>
    have hg : get_coffee_entry db id = .ok 200 e0 := by
      simp [get_coffee_entry, hfind]
    have hmem : e0 ∈ db.rows := List.mem_of_find?_eq_some hfind
    have hid : e0.id = id := by
      have := List.find?_some hfind
      simpa using this
    constructor
    · constructor
      · intro h
        rw [hg] at h
        simp at h
      · intro hall
        exact absurd hid (hall e0 hmem)
    · intro e he
      rw [hg] at he
      have : 200 = 200 ∧ e0 = e := by simpa using he
      rw [← this.2]
      exact ⟨hmem, hid⟩

/-- C5 witness: on the sample database, a successful get-by-id for id 1
returns a stored row whose id is 1. -/
theorem C5_witness : sampleEntry ∈ sampleDB.rows ∧ sampleEntry.id = 1 :=
  (C5_get_by_id_semantics sampleDB 1).2 sampleEntry (by decide)

/-- C10: a PATCH with an empty body on an existing record succeeds with 200
and returns exactly the prior record (every field, id included, unchanged),
and the database is left exactly as it was: the update is a no-op. -/
theorem C10_empty_patch_is_noop (db : DB) (id : Nat) (e : CoffeeEntry)
    (hfind : db.findEntry id = some e) :
    patch_coffee_entry db id emptyUpdate = (.ok 200 e, db) := by
  have hrep : (replaceFirst db.rows id fun r => r) = db.rows :=
    replaceFirst_congr_id _ _ _ (fun _ => rfl)
  simp [patch_coffee_entry, hfind, applyUpdate_empty, hrep]

/-- C10 witness: an empty PATCH body on the sample row returns it unchanged
and leaves the sample database unchanged. -/
theorem C10_witness :
    patch_coffee_entry sampleDB 1 emptyUpdate = (.ok 200 sampleEntry, sampleDB) :=
  C10_empty_patch_is_noop sampleDB 1 sampleEntry (by decide)

/-- C2, counterexample: the claim quantifies over every partial-update
request, but the PATCH body that explicitly supplies null for coffee_name
passes validation, fails the NOT NULL constraint at commit, and surfaces as a
500 with the transaction rolled back: the supplied field is not applied and
no 200 is returned, although the record exists. -/
theorem C2_counterexample :
    sampleDB.findEntry 1 = some sampleEntry ∧
    patch_coffee_entry sampleDB 1 nullNameUpdate
      = (.err 500 integrityErrorDetail, sampleDB) := by decide

/-- C2, amended: a PATCH on an existing record whose body does not explicitly
null the NOT NULL coffee_name column succeeds with 200, applies exactly the
fields present in the request, and leaves every other field at its prior
value; the updated row is what is stored.  The id is never touched (the
update schema has no id field), and processing is likewise untouched (absent
from the schema).  A body nulling coffee_name instead aborts with a 500
IntegrityError and applies nothing.  The coffee_entries table has no
updated_at-style column, so the refresh clause of the claim is vacuous for
the one resource that has routes. -/
theorem C2_patch_applies_exactly_supplied_fields (db : DB) (id : Nat)
    (u : CoffeeEntryUpdate) (e : CoffeeEntry)
    (hfind : db.findEntry id = some e)
    (hcn : u.coffee_name ≠ .set none) :
    ∃ e2 db2, patch_coffee_entry db id u = (.ok 200 e2, db2) ∧
      e2 ∈ db2.rows ∧
      e2.id = e.id ∧
      e2.processing = e.processing ∧
      (u.coffee_name = .unset → e2.coffee_name = e.coffee_name) ∧
      (∀ v, u.coffee_name = .set (some v) → e2.coffee_name = v) ∧
      (u.roaster = .unset → e2.roaster = e.roaster) ∧
      (∀ v, u.roaster = .set v → e2.roaster = v) ∧
      (u.origin = .unset → e2.origin = e.origin) ∧
      (∀ v, u.origin = .set v → e2.origin = v) ∧
      (u.roast_level = .unset → e2.roast_level = e.roast_level) ∧
      (∀ v, u.roast_level = .set v → e2.roast_level = v) ∧
      (u.brewing_method = .unset → e2.brewing_method = e.brewing_method) ∧
      (∀ v, u.brewing_method = .set v → e2.brewing_method = v) ∧
      (u.rating = .unset → e2.rating = e.rating) ∧
      (∀ v, u.rating = .set v → e2.rating = v) ∧
      (u.tasting_notes = .unset → e2.tasting_notes = e.tasting_notes) ∧
      (∀ v, u.tasting_notes = .set v → e2.tasting_notes = v) ∧
      (u.date_tried = .unset → e2.date_tried = e.date_tried) ∧
      (∀ v, u.date_tried = .set v → e2.date_tried = v) := by
  refine ⟨appliedRow e u,
          { db with rows := replaceFirst db.rows id fun r => (applyUpdate r u).getD r },
          by simp [patch_coffee_entry, hfind, applyUpdate_eq_some e u hcn],
          ?_,
          rfl, rfl, ?_, ?_, ?_, ?_, ?_, ?_, ?_, ?_, ?_, ?_, ?_, ?_, ?_, ?_, ?_, ?_⟩
  · have hmem :=
      mem_replaceFirst_of_find? db.rows id (fun r => (applyUpdate r u).getD r) e hfind
    simpa [applyUpdate_eq_some e u hcn] using hmem
  all_goals
    first
      | (intro h; simp [appliedRow, FieldPatch.apply, h])
      | (intro v hv; simp [appliedRow, FieldPatch.apply, hv])

/-- C2 witness: patching the sample row with a body supplying only roaster
changes roaster and nothing else, and the result is stored. -/
theorem C2_witness :
    ∃ e2 db2, patch_coffee_entry sampleDB 1 sampleUpdate = (.ok 200 e2, db2) ∧
      e2 ∈ db2.rows ∧
      e2.id = sampleEntry.id ∧
      e2.processing = sampleEntry.processing ∧
      (sampleUpdate.coffee_name = .unset → e2.coffee_name = sampleEntry.coffee_name) ∧
      (∀ v, sampleUpdate.coffee_name = .set (some v) → e2.coffee_name = v) ∧
      (sampleUpdate.roaster = .unset → e2.roaster = sampleEntry.roaster) ∧
      (∀ v, sampleUpdate.roaster = .set v → e2.roaster = v) ∧
      (sampleUpdate.origin = .unset → e2.origin = sampleEntry.origin) ∧
      (∀ v, sampleUpdate.origin = .set v → e2.origin = v) ∧
      (sampleUpdate.roast_level = .unset → e2.roast_level = sampleEntry.roast_level) ∧
      (∀ v, sampleUpdate.roast_level = .set v → e2.roast_level = v) ∧
      (sampleUpdate.brewing_method = .unset → e2.brewing_method = sampleEntry.brewing_method) ∧
      (∀ v, sampleUpdate.brewing_method = .set v → e2.brewing_method = v) ∧
      (sampleUpdate.rating = .unset → e2.rating = sampleEntry.rating) ∧
      (∀ v, sampleUpdate.rating = .set v → e2.rating = v) ∧
      (sampleUpdate.tasting_notes = .unset → e2.tasting_notes = sampleEntry.tasting_notes) ∧
      (∀ v, sampleUpdate.tasting_notes = .set v → e2.tasting_notes = v) ∧
      (sampleUpdate.date_tried = .unset → e2.date_tried = sampleEntry.date_tried) ∧
      (∀ v, sampleUpdate.date_tried = .set v → e2.date_tried = v) :=
  C2_patch_applies_exactly_supplied_fields sampleDB 1 sampleUpdate sampleEntry
    (by decide) (by decide)

/-- C9, counterexample: the claim says explicitly supplying null for an
optional field clears it, but a PATCH body nulling roaster together with the
NOT NULL coffee_name column passes validation and then aborts the whole
transaction with a 500 IntegrityError: roaster is not cleared — the stored
row still carries its prior roaster value. -/
theorem C9_counterexample :
    sampleDB.findEntry 1 = some sampleEntry ∧
    nullBothUpdate.roaster = .set none ∧
    patch_coffee_entry sampleDB 1 nullBothUpdate
      = (.err 500 integrityErrorDetail, sampleDB) ∧
    sampleEntry.roaster = some "Local Roast Co" := by decide

/-- C9, amended: partial updates distinguish an omitted field from a field
explicitly set to null.  For every existing record and every PATCH body that
does not explicitly null the NOT NULL coffee_name column: each optional field
whose key is absent keeps its prior value, and each optional field explicitly
supplied as null is cleared to absence in the returned and stored record.
A body that also nulls coffee_name instead aborts with a 500 IntegrityError
and clears nothing.  Presence is tracked per key (pydantic exclude_unset),
not by a sentinel value. -/
theorem C9_omitted_field_kept_null_field_cleared (db : DB) (id : Nat)
    (u : CoffeeEntryUpdate) (e : CoffeeEntry)
    (hfind : db.findEntry id = some e)
    (hcn : u.coffee_name ≠ .set none) :
    ∃ db2, patch_coffee_entry db id u = (.ok 200 (appliedRow e u), db2) ∧
      (u.roaster = .unset → (appliedRow e u).roaster = e.roaster) ∧
      (u.roaster = .set none → (appliedRow e u).roaster = none) ∧
      (u.origin = .unset → (appliedRow e u).origin = e.origin) ∧
      (u.origin = .set none → (appliedRow e u).origin = none) ∧
      (u.roast_level = .unset → (appliedRow e u).roast_level = e.roast_level) ∧
      (u.roast_level = .set none → (appliedRow e u).roast_level = none) ∧
      (u.brewing_method = .unset → (appliedRow e u).brewing_method = e.brewing_method) ∧
      (u.brewing_method = .set none → (appliedRow e u).brewing_method = none) ∧
      (u.rating = .unset → (appliedRow e u).rating = e.rating) ∧
      (u.rating = .set none → (appliedRow e u).rating = none) ∧
      (u.tasting_notes = .unset → (appliedRow e u).tasting_notes = e.tasting_notes) ∧
      (u.tasting_notes = .set none → (appliedRow e u).tasting_notes = none) ∧
      (u.date_tried = .unset → (appliedRow e u).date_tried = e.date_tried) ∧
      (u.date_tried = .set none → (appliedRow e u).date_tried = none) := by
  refine ⟨{ db with rows := replaceFirst db.rows id fun r => (applyUpdate r u).getD r },
          by simp [patch_coffee_entry, hfind, applyUpdate_eq_some e u hcn],
          ?_, ?_, ?_, ?_, ?_, ?_, ?_, ?_, ?_, ?_, ?_, ?_, ?_, ?_⟩
  all_goals intro h; simp [appliedRow, FieldPatch.apply, h]

/-- C9 witness: patching the sample row with a body that explicitly nulls
roaster and origin clears both, while omitted fields keep their values. -/
theorem C9_witness :
    ∃ db2, patch_coffee_entry sampleDB 1 sampleNullUpdate
        = (.ok 200 (appliedRow sampleEntry sampleNullUpdate), db2) ∧
      (sampleNullUpdate.roaster = .unset →
        (appliedRow sampleEntry sampleNullUpdate).roaster = sampleEntry.roaster) ∧
      (sampleNullUpdate.roaster = .set none →
        (appliedRow sampleEntry sampleNullUpdate).roaster = none) ∧
      (sampleNullUpdate.origin = .unset →
        (appliedRow sampleEntry sampleNullUpdate).origin = sampleEntry.origin) ∧
      (sampleNullUpdate.origin = .set none →
        (appliedRow sampleEntry sampleNullUpdate).origin = none) ∧
      (sampleNullUpdate.roast_level = .unset →
        (appliedRow sampleEntry sampleNullUpdate).roast_level = sampleEntry.roast_level) ∧
      (sampleNullUpdate.roast_level = .set none →
        (appliedRow sampleEntry sampleNullUpdate).roast_level = none) ∧
      (sampleNullUpdate.brewing_method = .unset →
        (appliedRow sampleEntry sampleNullUpdate).brewing_method = sampleEntry.brewing_method) ∧
      (sampleNullUpdate.brewing_method = .set none →
        (appliedRow sampleEntry sampleNullUpdate).brewing_method = none) ∧
      (sampleNullUpdate.rating = .unset →
        (appliedRow sampleEntry sampleNullUpdate).rating = sampleEntry.rating) ∧
      (sampleNullUpdate.rating = .set none →
        (appliedRow sampleEntry sampleNullUpdate).rating = none) ∧
      (sampleNullUpdate.tasting_notes = .unset →
        (appliedRow sampleEntry sampleNullUpdate).tasting_notes = sampleEntry.tasting_notes) ∧
      (sampleNullUpdate.tasting_notes = .set none →
        (appliedRow sampleEntry sampleNullUpdate).tasting_notes = none) ∧
      (sampleNullUpdate.date_tried = .unset →
        (appliedRow sampleEntry sampleNullUpdate).date_tried = sampleEntry.date_tried) ∧
      (sampleNullUpdate.date_tried = .set none →
        (appliedRow sampleEntry sampleNullUpdate).date_tried = none) :=
  C9_omitted_field_kept_null_field_cleared sampleDB 1 sampleNullUpdate sampleEntry
    (by decide) (by decide)

/-- C4: a create request containing the required field persists the record
and returns it with a freshly generated identifier distinct from the id of
every previously stored record, and the primary-key well-formedness of the
table is preserved. -/
theorem C4_create_persists_with_fresh_unique_id (db : DB) (p : RawCreatePayload)
    (s : String) (hwf : db.WF) (hname : p.coffee_name = some s) :
    ∃ e db2, post_coffee_entry db p = (.ok 201 e, db2) ∧
      e ∈ db2.rows ∧
      (∀ r ∈ db.rows, r.id ≠ e.id) ∧
      db2.WF := by
  obtain ⟨hpw, hlt⟩ := hwf
  refine ⟨{ id := db.nextId, coffee_name := s, roaster := p.roaster,
            origin := p.origin, processing := none,
            roast_level := p.roast_level, brewing_method := p.brewing_method,
            rating := p.rating, tasting_notes := p.tasting_notes,
            date_tried := p.date_tried },
          { rows := db.rows ++
              [{ id := db.nextId, coffee_name := s, roaster := p.roaster,
                 origin := p.origin, processing := none,
                 roast_level := p.roast_level, brewing_method := p.brewing_method,
                 rating := p.rating, tasting_notes := p.tasting_notes,
                 date_tried := p.date_tried }],
            nextId := db.nextId + 1 },
          ?_, ?_, ?_, ?_, ?_⟩
  · simp [post_coffee_entry, CoffeeEntryCreate.validate, hname,
      create_coffee_entry]
  · simp
  · intro r hr
    exact Nat.ne_of_lt (hlt r hr)
  · rw [List.pairwise_append]
    refine ⟨hpw, List.pairwise_singleton _ _, ?_⟩
    intro a ha b hb
    have hb2 : b.id = db.nextId := by
      rw [List.mem_singleton] at hb
      rw [hb]
    rw [hb2]
    exact Nat.ne_of_lt (hlt a ha)
  · intro r hr
    rcases List.mem_append.mp hr with h1 | h2
    · exact Nat.lt_trans (hlt r h1) (Nat.lt_succ_self _)
    · rw [List.mem_singleton] at h2
      rw [h2]
      exact Nat.lt_succ_self _

/-- C4 witness: creating a concrete valid payload on the sample database
persists a row whose id differs from the id of the previously stored row,
keeping the table well-formed. -/
theorem C4_witness :
    ∃ e db2, post_coffee_entry sampleDB samplePayload = (.ok 201 e, db2) ∧
      e ∈ db2.rows ∧
      (∀ r ∈ sampleDB.rows, r.id ≠ e.id) ∧
      db2.WF :=
  C4_create_persists_with_fresh_unique_id sampleDB samplePayload "Kenya AA"
    (by decide) rfl

/-- C6: deleting an existing record succeeds with 204 and no content, after
which get-by-id for that identifier returns 404; deleting a nonexistent
identifier returns 404 and leaves the database exactly unchanged. -/
theorem C6_delete_semantics (db : DB) (id : Nat) (hwf : db.WF) :
    (∀ e, db.findEntry id = some e →
       ∃ db2, delete_coffee_entry db id = (.ok 204 (), db2) ∧
         get_coffee_entry db2 id = .err 404 (notFoundDetail id)) ∧
    (db.findEntry id = none →
       delete_coffee_entry db id = (.err 404 (notFoundDetail id), db)) := by
  obtain ⟨hpw, _⟩ := hwf
  constructor
  · intro e hfind
    refine ⟨{ db with rows := removeFirst db.rows id }, ?_, ?_⟩
    · simp [delete_coffee_entry, hfind]
    · have hnone : ({ db with rows := removeFirst db.rows id } : DB).findEntry id
          = none := find?_removeFirst_eq_none db.rows id hpw
      simp [get_coffee_entry, hnone]
  · intro hnone
    simp [delete_coffee_entry, hnone]

/-- C6 witness: deleting the sample row returns 204 and a state where getting
id 1 yields 404. -/
theorem C6_witness :
    ∃ db2, delete_coffee_entry sampleDB 1 = (.ok 204 (), db2) ∧
      get_coffee_entry db2 1 = .err 404 (notFoundDetail 1) :=
  (C6_delete_semantics sampleDB 1 (by decide)).1 sampleEntry (by decide)

/-- C7, counterexample: the claim says a create request whose required text
field is the empty string is rejected, but the pydantic schema only requires
coffee_name to be a string, with no non-emptiness constraint: the request
with coffee_name equal to the empty string succeeds with 201 and the record
is persisted. -/
theorem C7_counterexample :
    post_coffee_entry emptyDB emptyNamePayload
      = (.ok 201 emptyNameEntry,
         { rows := [emptyNameEntry], nextId := 2 }) ∧
    emptyNameEntry ∈ (post_coffee_entry emptyDB emptyNamePayload).2.rows := by
  decide

/-- C7, amended: at creation the required field must be present: a payload
lacking coffee_name is rejected, but non-emptiness is not enforced — any
string value, the empty string included, is accepted and persisted
verbatim. -/
theorem C7_required_field_presence_only (db : DB) (p : RawCreatePayload)
    (s : String) (hname : p.coffee_name = some s) :
    ∃ e db2, post_coffee_entry db p = (.ok 201 e, db2) ∧
      e.coffee_name = s ∧ e ∈ db2.rows := by
  refine ⟨{ id := db.nextId, coffee_name := s, roaster := p.roaster,
            origin := p.origin, processing := none,
            roast_level := p.roast_level, brewing_method := p.brewing_method,
            rating := p.rating, tasting_notes := p.tasting_notes,
            date_tried := p.date_tried },
          { rows := db.rows ++
              [{ id := db.nextId, coffee_name := s, roaster := p.roaster,
                 origin := p.origin, processing := none,
                 roast_level := p.roast_level, brewing_method := p.brewing_method,
                 rating := p.rating, tasting_notes := p.tasting_notes,
                 date_tried := p.date_tried }],
            nextId := db.nextId + 1 }, ?_, rfl, ?_⟩
  · simp [post_coffee_entry, CoffeeEntryCreate.validate, hname,
      create_coffee_entry]
  · simp

/-- C7 witness: the amended statement at the empty-string input — the create
succeeds and persists the row with coffee_name equal to the empty string. -/
theorem C7_witness :
    ∃ e db2, post_coffee_entry emptyDB emptyNamePayload = (.ok 201 e, db2) ∧
      e.coffee_name = "" ∧ e ∈ db2.rows :=
  C7_required_field_presence_only emptyDB emptyNamePayload "" rfl

/-- C8, counterexample: the claim says the create input covers all
required-plus-optional fields (omitting only generated ones) and in
particular that processing can be supplied at creation and appears in the
response; but processing is a column of the coffee_entries table while being
absent from both the CoffeeEntryBase create schema and the response
schema. -/
theorem C8_counterexample :
    "processing" ∈ coffeeEntryColumns ∧
    "processing" ∉ coffeeEntryBaseFields ∧
    "processing" ∉ coffeeEntryResponseFields := by decide

/-- C8, amended: the create input is the column set of the resource minus the
generated id and minus processing, which appears in no request or response
schema; consequently every created record has processing equal to NULL. -/
theorem C8_create_schema_omits_processing :
    coffeeEntryBaseFields = (coffeeEntryColumns.erase "id").erase "processing" ∧
    ∀ c db, (create_coffee_entry c db).1.processing = none :=
  ⟨by decide, fun _ _ => rfl⟩

end CoffeeJournal
